import Mathlib

/-!
Verification of the credential-resolution module of `ovh-rs`
(`src/config.rs`): the endpoint-to-host table, the four `Credential`
constructors, and the TOML-file reading pipeline `read_from_path`.

The external `toml` crate is modelled as a tree of named values
(`Toml`) together with an abstract parsing capability carried by an
`Env` record; `File::open`/`read_to_string` are likewise abstracted
into `Env.readFile`.  Every `panic!` and `Option::unwrap()`-on-`None`
in the Rust source is modelled by the `Outcome.panic` constructor, so
that abort-vs-return behaviour is visible in the embedding.
-/

/-- A TOML value: a string leaf or a table of named sub-values.
(The toml crate has further leaf kinds; only these two are reachable
from the claims — any `table` serves as a non-string value.) -/
inductive Toml where
  | str : String → Toml
  | table : List (String × Toml) → Toml

/-- Lookup of a key in a TOML table (the crate's `BTreeMap::get`). -/
def assocGet : List (String × Toml) → String → Option Toml
  | [], _ => none
  | (k, v) :: rest, key => if k = key then some v else assocGet rest key

/-- One lookup step on a value: only tables have keys. -/
def Toml.getKey : Toml → String → Option Toml
  | .table kvs, k => assocGet kvs k
  | .str _, _ => none

/-- Traversal of a value along a list of keys. -/
def Toml.lookupPath : Toml → List String → Option Toml
  | t, [] => some t
  | t, k :: ks =>
    match t.getKey k with
    | none => none
    | some u => u.lookupPath ks

/-- Split a character list on the dot character, as the toml crate's
`Value::lookup` splits its path argument. -/
def splitOnDot : List Char → List (List Char)
  | [] => [[]]
  | c :: rest =>
    let r := splitOnDot rest
    if c = '.' then [] :: r
    else
      match r with
      | [] => [[c]]
      | g :: gs => (c :: g) :: gs

/-- `toml::Value::lookup`: split the path on dots and traverse. -/
def Toml.lookup (t : Toml) (key : String) : Option Toml :=
  t.lookupPath ((splitOnDot key.toList).map (fun cs => String.mk cs))

/-- `toml::Value::as_str`: `some` exactly on string leaves. -/
def Toml.as_str : Toml → Option String
  | .str s => some s
  | .table _ => none

/-- `DEFAULT_CONFIG_PATH` constant from `config.rs`. -/
def DEFAULT_CONFIG_PATH : String := "Config.toml"

/-- The `Credential` struct of `config.rs`, field for field
(`path`/`toml` are the spec's `source_path`/`raw_config`). -/
structure Credential where
  path : Option String
  toml : Option Toml
  host : String
  application_key : String
  application_secret : String
  consumer_key : String

/-- Result of opening-and-reading a file: the two distinct I/O
failure points of `read_from_path` (`File::open` failing,
`read_to_string` failing) or the file's text. -/
inductive FileRead where
  | noOpen
  | noRead
  | content : String → FileRead

/-- The ambient capabilities of `read_from_path`: the filesystem and
the external TOML parser (`toml::Parser::parse`, which yields `None`
on syntactically invalid content). -/
structure Env where
  readFile : String → FileRead
  parseToml : String → Option (List (String × Toml))

/-- Result of running a Rust computation that may `panic!`: either a
value or a process abort carrying the panic message. -/
inductive Outcome (α : Type) where
  | ok : α → Outcome α
  | panic : String → Outcome α

/-- Message produced by `Option::unwrap()` on `None`. -/
def unwrapMsg : String := "called Option unwrap on a None value"

/-- `endpoint2host` from `config.rs`: the fixed seven-entry table with
fallback `api.ovh.com`. -/
def endpoint2host (endpoint : String) : String :=
  match endpoint with
  | "ovh-ca" => "ca.api.ovh.com"
  | "ovh-eu" => "eu.api.ovh.com"
  | "ovh-us" => "us.api.ovh.com"
  | "soyoustart-ca" => "ca.api.soyoustart.com"
  | "soyoustart-eu" => "eu.api.soyoustart.com"
  | "kimsufi-ca" => "ca.api.kimsufi.com"
  | "kimsufi-eu" => "eu.api.kimsufi.com"
  | _ => "api.ovh.com"

/-- `read_from_path` from `config.rs`: open and read the file, parse
the text, extract `default.endpoint`, resolve the host, and return it
with the table section keyed by the endpoint identifier.  Every
failure path in the source is a `panic!` or an `unwrap()`. -/
def read_from_path (env : Env) (path : String) : Outcome (String × Toml) :=
  match env.readFile path with
  | .noOpen => .panic "Cannot open given path"
  | .noRead => .panic "Cannot read file"
  | .content s =>
    match env.parseToml s with
    | none => .panic "Cannot parse toml content"
    | some toml =>
      match assocGet toml "default" with
      | none => .panic unwrapMsg
      | some d =>
        match d.lookup "endpoint" with
        | none => .panic unwrapMsg
        | some e =>
          match e.as_str with
          | none => .panic unwrapMsg
          | some ep =>
            match assocGet toml ep with
            | none => .panic unwrapMsg
            | some sec => .ok (endpoint2host ep, sec)

/-- `auth.lookup(k).unwrap().as_str().unwrap()` as done for each of
the three credential fields in `new` / `new_from_file`. -/
def lookupString (auth : Toml) (key : String) : Outcome String :=
  match auth.lookup key with
  | none => .panic unwrapMsg
  | some v =>
    match v.as_str with
    | none => .panic unwrapMsg
    | some s => .ok s

/-- `Credential::new` from `config.rs`: read from the default path and
store `Some(DEFAULT_CONFIG_PATH)` as the path. -/
def Credential.new (env : Env) : Outcome Credential :=
  match read_from_path env DEFAULT_CONFIG_PATH with
  | .panic m => .panic m
  | .ok (host, auth) =>
    match lookupString auth "application_key" with
    | .panic m => .panic m
    | .ok app_key =>
      match lookupString auth "application_secret" with
      | .panic m => .panic m
      | .ok app_secret =>
        match lookupString auth "consumer_key" with
        | .panic m => .panic m
        | .ok cons_key =>
          .ok { toml := some auth, path := some DEFAULT_CONFIG_PATH,
                host := host, application_key := app_key,
                application_secret := app_secret, consumer_key := cons_key }

/-- `Credential::new_from_file` from `config.rs`: read from the given
path; note the source stores `Some("".to_string())` as the path, not
the argument. -/
def Credential.new_from_file (env : Env) (path : String) : Outcome Credential :=
  match read_from_path env path with
  | .panic m => .panic m
  | .ok (host, auth) =>
    match lookupString auth "application_key" with
    | .panic m => .panic m
    | .ok app_key =>
      match lookupString auth "application_secret" with
      | .panic m => .panic m
      | .ok app_secrets =>
        match lookupString auth "consumer_key" with
        | .panic m => .panic m
        | .ok cons_key =>
          .ok { toml := some auth, path := some "",
                host := host, application_key := app_key,
                application_secret := app_secrets, consumer_key := cons_key }

/-- `Credential::new_with_application` from `config.rs`. -/
def Credential.new_with_application (endpoint application_key application_secret : String) :
    Credential :=
  { toml := none, path := none, host := endpoint2host endpoint,
    application_key := application_key, application_secret := application_secret,
    consumer_key := "" }

/-- `Credential::new_with_credential` from `config.rs`. -/
def Credential.new_with_credential
    (endpoint application_key application_secret consumer_key : String) : Credential :=
  { toml := none, path := none, host := endpoint2host endpoint,
    application_key := application_key, application_secret := application_secret,
    consumer_key := consumer_key }

/-- A well-formed parsed configuration, as in `Config.toml.dist`. -/
def goodTable : List (String × Toml) :=
  [("default", .table [("endpoint", .str "ovh-eu")]),
   ("ovh-eu", .table [("application_key", .str "ak"),
                      ("application_secret", .str "as"),
                      ("consumer_key", .str "ck")])]

/-- Environment in which every file exists and parses to `goodTable`. -/
def envGood : Env :=
  { readFile := fun _ => .content "good", parseToml := fun _ => some goodTable }

/-- Environment in which no file can be opened. -/
def envNoOpen : Env :=
  { readFile := fun _ => .noOpen, parseToml := fun _ => none }

/-- Environment in which files open but cannot be read. -/
def envNoRead : Env :=
  { readFile := fun _ => .noRead, parseToml := fun _ => none }

/-- Environment in which file content is not valid TOML. -/
def envBadParse : Env :=
  { readFile := fun _ => .content "bad", parseToml := fun _ => none }

/-- Environment in which files parse to an empty table (so the
`default` section is missing). -/
def envNoDefault : Env :=
  { readFile := fun _ => .content "x", parseToml := fun _ => some [] }

/-- Environment whose `default` section lacks the `endpoint` key. -/
def envNoEndpoint : Env :=
  { readFile := fun _ => .content "x",
    parseToml := fun _ => some [("default", Toml.table [])] }

/-- Environment whose `default.endpoint` value is not a string. -/
def envBadEndpointType : Env :=
  { readFile := fun _ => .content "x",
    parseToml := fun _ => some [("default", Toml.table [("endpoint", Toml.table [])])] }

/-- Environment whose tree has `default.endpoint = "ovh-eu"` but no
top-level `ovh-eu` section. -/
def envNoSection : Env :=
  { readFile := fun _ => .content "x",
    parseToml := fun _ => some [("default", Toml.table [("endpoint", Toml.str "ovh-eu")])] }

/-- Environment whose `ovh-eu` section lacks the `consumer_key`
field. -/
def envNoConsumer : Env :=
  { readFile := fun _ => .content "x",
    parseToml := fun _ => some
      [("default", Toml.table [("endpoint", Toml.str "ovh-eu")]),
       ("ovh-eu", Toml.table [("application_key", Toml.str "ak"),
                              ("application_secret", Toml.str "as")])] }

/-- A credential field of the resolved section is absent or has a
non-string value. -/
def fieldMissing (auth : Toml) (k : String) : Prop :=
  auth.lookup k = none ∨ ∃ v, auth.lookup k = some v ∧ v.as_str = none

/-- C2: `endpoint2host` is a pure total function agreeing with the
seven-entry table and returning `api.ovh.com` on every other string. -/
theorem C2_endpoint2host_total_table (e : String) :
    endpoint2host e =
      if e = "ovh-ca" then "ca.api.ovh.com"
      else if e = "ovh-eu" then "eu.api.ovh.com"
      else if e = "ovh-us" then "us.api.ovh.com"
      else if e = "soyoustart-ca" then "ca.api.soyoustart.com"
      else if e = "soyoustart-eu" then "eu.api.soyoustart.com"
      else if e = "kimsufi-ca" then "ca.api.kimsufi.com"
      else if e = "kimsufi-eu" then "eu.api.kimsufi.com"
      else "api.ovh.com" := by
  unfold endpoint2host
  split <;> simp_all

/-- C10: `new_with_application` coincides with `new_with_credential`
applied to the empty consumer key, for all string arguments. -/
theorem C10_application_eq_credential_empty (e k s : String) :
    Credential.new_with_application e k s =
      Credential.new_with_credential e k s "" := rfl

/-- C1 counterexample: at concrete inputs, each of the three failure
kinds (unopenable file, unparsable content, missing required key)
makes `new_from_file` abort the process with a panic; no typed failure
value is returned to the caller. -/
theorem C1_counterexample_panics :
    Credential.new_from_file envNoOpen "unknown.toml"
      = Outcome.panic "Cannot open given path" ∧
    Credential.new_from_file envBadParse "f.toml"
      = Outcome.panic "Cannot parse toml content" ∧
    Credential.new_from_file envNoDefault "f.toml"
      = Outcome.panic unwrapMsg := ⟨rfl, rfl, rfl⟩

theorem read_from_path_panics (env : Env) (p : String) :
    (env.readFile p = FileRead.noOpen →
      read_from_path env p = Outcome.panic "Cannot open given path") ∧
    (env.readFile p = FileRead.noRead →
      read_from_path env p = Outcome.panic "Cannot read file") ∧
    (∀ s, env.readFile p = FileRead.content s → env.parseToml s = none →
      read_from_path env p = Outcome.panic "Cannot parse toml content") ∧
    (∀ s tbl, env.readFile p = FileRead.content s → env.parseToml s = some tbl →
      assocGet tbl "default" = none →
      read_from_path env p = Outcome.panic unwrapMsg) ∧
    (∀ s tbl d, env.readFile p = FileRead.content s → env.parseToml s = some tbl →
      assocGet tbl "default" = some d → d.lookup "endpoint" = none →
      read_from_path env p = Outcome.panic unwrapMsg) ∧
    (∀ s tbl d e, env.readFile p = FileRead.content s → env.parseToml s = some tbl →
      assocGet tbl "default" = some d → d.lookup "endpoint" = some e →
      e.as_str = none → read_from_path env p = Outcome.panic unwrapMsg) ∧
    (∀ s tbl d ep, env.readFile p = FileRead.content s → env.parseToml s = some tbl →
      assocGet tbl "default" = some d → d.lookup "endpoint" = some (Toml.str ep) →
      assocGet tbl ep = none → read_from_path env p = Outcome.panic unwrapMsg) := by
  refine ⟨fun h => ?_, fun h => ?_, fun s h1 h2 => ?_, fun s tbl h1 h2 h3 => ?_,
    fun s tbl d h1 h2 h3 h4 => ?_, fun s tbl d e h1 h2 h3 h4 h5 => ?_,
    fun s tbl d ep h1 h2 h3 h4 h5 => ?_⟩
  · simp [read_from_path, h]
  · simp [read_from_path, h]
  · simp [read_from_path, h1, h2]
  · simp [read_from_path, h1, h2, h3]
  · simp [read_from_path, h1, h2, h3, h4]
  · simp [read_from_path, h1, h2, h3, h4, h5]
  · simp [read_from_path, h1, h2, h3, h4, h5, Toml.as_str]

theorem new_from_file_panic_propagates (env : Env) (p m : String)
    (h : read_from_path env p = Outcome.panic m) :
    Credential.new_from_file env p = Outcome.panic m := by
  simp [Credential.new_from_file, h]

theorem new_panic_propagates (env : Env) (m : String)
    (h : read_from_path env DEFAULT_CONFIG_PATH = Outcome.panic m) :
    Credential.new env = Outcome.panic m := by
  simp [Credential.new, h]

theorem lookupString_of_missing (auth : Toml) (k : String)
    (h : fieldMissing auth k) : lookupString auth k = Outcome.panic unwrapMsg := by
  rcases h with h | ⟨v, hv, hvs⟩
  · simp [lookupString, h]
  · simp [lookupString, hv, hvs]

theorem lookupString_cases (auth : Toml) (k : String) :
    lookupString auth k = Outcome.panic unwrapMsg ∨
      ∃ s, lookupString auth k = Outcome.ok s := by
  unfold lookupString
  split
  · exact Or.inl rfl
  · split
    · exact Or.inl rfl
    · exact Or.inr ⟨_, rfl⟩

theorem new_from_file_field_abort (env : Env) (p host : String) (auth : Toml)
    (hok : read_from_path env p = Outcome.ok (host, auth))
    (hm : fieldMissing auth "application_key" ∨ fieldMissing auth "application_secret" ∨
          fieldMissing auth "consumer_key") :
    Credential.new_from_file env p = Outcome.panic unwrapMsg := by
  rcases lookupString_cases auth "application_key" with h1 | ⟨s1, h1⟩
  · simp [Credential.new_from_file, hok, h1]
  rcases lookupString_cases auth "application_secret" with h2 | ⟨s2, h2⟩
  · simp [Credential.new_from_file, hok, h1, h2]
  rcases lookupString_cases auth "consumer_key" with h3 | ⟨s3, h3⟩
  · simp [Credential.new_from_file, hok, h1, h2, h3]
  exfalso
  rcases hm with hm | hm | hm
  · rw [lookupString_of_missing auth "application_key" hm] at h1
    exact Outcome.noConfusion h1
  · rw [lookupString_of_missing auth "application_secret" hm] at h2
    exact Outcome.noConfusion h2
  · rw [lookupString_of_missing auth "consumer_key" hm] at h3
    exact Outcome.noConfusion h3

theorem new_field_abort (env : Env) (host : String) (auth : Toml)
    (hok : read_from_path env DEFAULT_CONFIG_PATH = Outcome.ok (host, auth))
    (hm : fieldMissing auth "application_key" ∨ fieldMissing auth "application_secret" ∨
          fieldMissing auth "consumer_key") :
    Credential.new env = Outcome.panic unwrapMsg := by
  rcases lookupString_cases auth "application_key" with h1 | ⟨s1, h1⟩
  · simp [Credential.new, hok, h1]
  rcases lookupString_cases auth "application_secret" with h2 | ⟨s2, h2⟩
  · simp [Credential.new, hok, h1, h2]
  rcases lookupString_cases auth "consumer_key" with h3 | ⟨s3, h3⟩
  · simp [Credential.new, hok, h1, h2, h3]
  exfalso
  rcases hm with hm | hm | hm
  · rw [lookupString_of_missing auth "application_key" hm] at h1
    exact Outcome.noConfusion h1
  · rw [lookupString_of_missing auth "application_secret" hm] at h2
    exact Outcome.noConfusion h2
  · rw [lookupString_of_missing auth "consumer_key" hm] at h3
    exact Outcome.noConfusion h3

/-- C1 amended: for both Path A constructors (`new`, reading the
default path, and `new_from_file`, reading its argument path), every
construction failure — the file cannot be opened, cannot be read, its
content does not parse, the `default` table is absent, the
`default.endpoint` key is absent or non-string, the endpoint-named
section is absent, or any of the three credential fields is absent or
non-string — is turned into a process abort (panic), never into a
typed failure value returned to the caller. -/
theorem C1_failures_abort (env : Env) (p : String) :
    (env.readFile p = FileRead.noOpen →
      Credential.new_from_file env p = Outcome.panic "Cannot open given path") ∧
    (env.readFile DEFAULT_CONFIG_PATH = FileRead.noOpen →
      Credential.new env = Outcome.panic "Cannot open given path") ∧
    (env.readFile p = FileRead.noRead →
      Credential.new_from_file env p = Outcome.panic "Cannot read file") ∧
    (env.readFile DEFAULT_CONFIG_PATH = FileRead.noRead →
      Credential.new env = Outcome.panic "Cannot read file") ∧
    (∀ s, env.readFile p = FileRead.content s → env.parseToml s = none →
      Credential.new_from_file env p = Outcome.panic "Cannot parse toml content") ∧
    (∀ s, env.readFile DEFAULT_CONFIG_PATH = FileRead.content s →
      env.parseToml s = none →
      Credential.new env = Outcome.panic "Cannot parse toml content") ∧
    (∀ s tbl, env.readFile p = FileRead.content s → env.parseToml s = some tbl →
      assocGet tbl "default" = none →
      Credential.new_from_file env p = Outcome.panic unwrapMsg) ∧
    (∀ s tbl, env.readFile DEFAULT_CONFIG_PATH = FileRead.content s →
      env.parseToml s = some tbl → assocGet tbl "default" = none →
      Credential.new env = Outcome.panic unwrapMsg) ∧
    (∀ s tbl d, env.readFile p = FileRead.content s → env.parseToml s = some tbl →
      assocGet tbl "default" = some d → d.lookup "endpoint" = none →
      Credential.new_from_file env p = Outcome.panic unwrapMsg) ∧
    (∀ s tbl d, env.readFile DEFAULT_CONFIG_PATH = FileRead.content s →
      env.parseToml s = some tbl → assocGet tbl "default" = some d →
      d.lookup "endpoint" = none →
      Credential.new env = Outcome.panic unwrapMsg) ∧
    (∀ s tbl d e, env.readFile p = FileRead.content s → env.parseToml s = some tbl →
      assocGet tbl "default" = some d → d.lookup "endpoint" = some e →
      e.as_str = none →
      Credential.new_from_file env p = Outcome.panic unwrapMsg) ∧
    (∀ s tbl d e, env.readFile DEFAULT_CONFIG_PATH = FileRead.content s →
      env.parseToml s = some tbl → assocGet tbl "default" = some d →
      d.lookup "endpoint" = some e → e.as_str = none →
      Credential.new env = Outcome.panic unwrapMsg) ∧
    (∀ s tbl d ep, env.readFile p = FileRead.content s → env.parseToml s = some tbl →
      assocGet tbl "default" = some d → d.lookup "endpoint" = some (Toml.str ep) →
      assocGet tbl ep = none →
      Credential.new_from_file env p = Outcome.panic unwrapMsg) ∧
    (∀ s tbl d ep, env.readFile DEFAULT_CONFIG_PATH = FileRead.content s →
      env.parseToml s = some tbl → assocGet tbl "default" = some d →
      d.lookup "endpoint" = some (Toml.str ep) → assocGet tbl ep = none →
      Credential.new env = Outcome.panic unwrapMsg) ∧
    (∀ host auth, read_from_path env p = Outcome.ok (host, auth) →
      fieldMissing auth "application_key" ∨ fieldMissing auth "application_secret" ∨
        fieldMissing auth "consumer_key" →
      Credential.new_from_file env p = Outcome.panic unwrapMsg) ∧
    (∀ host auth, read_from_path env DEFAULT_CONFIG_PATH = Outcome.ok (host, auth) →
      fieldMissing auth "application_key" ∨ fieldMissing auth "application_secret" ∨
        fieldMissing auth "consumer_key" →
      Credential.new env = Outcome.panic unwrapMsg) := by
  obtain ⟨r1, r2, r3, r4, r5, r6, r7⟩ := read_from_path_panics env p
  obtain ⟨d1, d2, d3, d4, d5, d6, d7⟩ := read_from_path_panics env DEFAULT_CONFIG_PATH
  exact ⟨fun h => new_from_file_panic_propagates env p _ (r1 h),
    fun h => new_panic_propagates env _ (d1 h),
    fun h => new_from_file_panic_propagates env p _ (r2 h),
    fun h => new_panic_propagates env _ (d2 h),
    fun s h1 h2 => new_from_file_panic_propagates env p _ (r3 s h1 h2),
    fun s h1 h2 => new_panic_propagates env _ (d3 s h1 h2),
    fun s tbl h1 h2 h3 => new_from_file_panic_propagates env p _ (r4 s tbl h1 h2 h3),
    fun s tbl h1 h2 h3 => new_panic_propagates env _ (d4 s tbl h1 h2 h3),
    fun s tbl d h1 h2 h3 h4 =>
      new_from_file_panic_propagates env p _ (r5 s tbl d h1 h2 h3 h4),
    fun s tbl d h1 h2 h3 h4 => new_panic_propagates env _ (d5 s tbl d h1 h2 h3 h4),
    fun s tbl d e h1 h2 h3 h4 h5 =>
      new_from_file_panic_propagates env p _ (r6 s tbl d e h1 h2 h3 h4 h5),
    fun s tbl d e h1 h2 h3 h4 h5 =>
      new_panic_propagates env _ (d6 s tbl d e h1 h2 h3 h4 h5),
    fun s tbl d ep h1 h2 h3 h4 h5 =>
      new_from_file_panic_propagates env p _ (r7 s tbl d ep h1 h2 h3 h4 h5),
    fun s tbl d ep h1 h2 h3 h4 h5 =>
      new_panic_propagates env _ (d7 s tbl d ep h1 h2 h3 h4 h5),
    fun host auth hok hm => new_from_file_field_abort env p host auth hok hm,
    fun host auth hok hm => new_field_abort env host auth hok hm⟩

/-- Witness for C1: the amended theorem applied at concrete
environments exercising every failure kind for both constructors. -/
theorem C1_failures_abort_witness :
    Credential.new_from_file envNoOpen "p" = Outcome.panic "Cannot open given path" ∧
    Credential.new envNoOpen = Outcome.panic "Cannot open given path" ∧
    Credential.new_from_file envNoRead "p" = Outcome.panic "Cannot read file" ∧
    Credential.new envNoRead = Outcome.panic "Cannot read file" ∧
    Credential.new_from_file envBadParse "p" = Outcome.panic "Cannot parse toml content" ∧
    Credential.new envBadParse = Outcome.panic "Cannot parse toml content" ∧
    Credential.new_from_file envNoDefault "p" = Outcome.panic unwrapMsg ∧
    Credential.new envNoDefault = Outcome.panic unwrapMsg ∧
    Credential.new_from_file envNoEndpoint "p" = Outcome.panic unwrapMsg ∧
    Credential.new envNoEndpoint = Outcome.panic unwrapMsg ∧
    Credential.new_from_file envBadEndpointType "p" = Outcome.panic unwrapMsg ∧
    Credential.new envBadEndpointType = Outcome.panic unwrapMsg ∧
    Credential.new_from_file envNoSection "p" = Outcome.panic unwrapMsg ∧
    Credential.new envNoSection = Outcome.panic unwrapMsg ∧
    Credential.new_from_file envNoConsumer "p" = Outcome.panic unwrapMsg ∧
    Credential.new envNoConsumer = Outcome.panic unwrapMsg := by
  refine ⟨?_, ?_, ?_, ?_, ?_, ?_, ?_, ?_, ?_, ?_, ?_, ?_, ?_, ?_, ?_, ?_⟩
  · exact (C1_failures_abort envNoOpen "p").1 rfl
  · exact (C1_failures_abort envNoOpen "p").2.1 rfl
  · exact (C1_failures_abort envNoRead "p").2.2.1 rfl
  · exact (C1_failures_abort envNoRead "p").2.2.2.1 rfl
  · exact (C1_failures_abort envBadParse "p").2.2.2.2.1 "bad" rfl rfl
  · exact (C1_failures_abort envBadParse "p").2.2.2.2.2.1 "bad" rfl rfl
  · exact (C1_failures_abort envNoDefault "p").2.2.2.2.2.2.1 "x" [] rfl rfl rfl
  · exact (C1_failures_abort envNoDefault "p").2.2.2.2.2.2.2.1 "x" [] rfl rfl rfl
  · exact (C1_failures_abort envNoEndpoint "p").2.2.2.2.2.2.2.2.1 "x"
      [("default", Toml.table [])] (Toml.table []) rfl rfl rfl rfl
  · exact (C1_failures_abort envNoEndpoint "p").2.2.2.2.2.2.2.2.2.1 "x"
      [("default", Toml.table [])] (Toml.table []) rfl rfl rfl rfl
  · exact (C1_failures_abort envBadEndpointType "p").2.2.2.2.2.2.2.2.2.2.1 "x"
      [("default", Toml.table [("endpoint", Toml.table [])])]
      (Toml.table [("endpoint", Toml.table [])]) (Toml.table []) rfl rfl rfl rfl rfl
  · exact (C1_failures_abort envBadEndpointType "p").2.2.2.2.2.2.2.2.2.2.2.1 "x"
      [("default", Toml.table [("endpoint", Toml.table [])])]
      (Toml.table [("endpoint", Toml.table [])]) (Toml.table []) rfl rfl rfl rfl rfl
  · exact (C1_failures_abort envNoSection "p").2.2.2.2.2.2.2.2.2.2.2.2.1 "x"
      [("default", Toml.table [("endpoint", Toml.str "ovh-eu")])]
      (Toml.table [("endpoint", Toml.str "ovh-eu")]) "ovh-eu" rfl rfl rfl rfl rfl
  · exact (C1_failures_abort envNoSection "p").2.2.2.2.2.2.2.2.2.2.2.2.2.1 "x"
      [("default", Toml.table [("endpoint", Toml.str "ovh-eu")])]
      (Toml.table [("endpoint", Toml.str "ovh-eu")]) "ovh-eu" rfl rfl rfl rfl rfl
  · exact (C1_failures_abort envNoConsumer "p").2.2.2.2.2.2.2.2.2.2.2.2.2.2.1
      "eu.api.ovh.com"
      (Toml.table [("application_key", Toml.str "ak"),
                   ("application_secret", Toml.str "as")])
      rfl (Or.inr (Or.inr (Or.inl rfl)))
  · exact (C1_failures_abort envNoConsumer "p").2.2.2.2.2.2.2.2.2.2.2.2.2.2.2
      "eu.api.ovh.com"
      (Toml.table [("application_key", Toml.str "ak"),
                   ("application_secret", Toml.str "as")])
      rfl (Or.inr (Or.inr (Or.inl rfl)))

/-- C3: on any file whose parse tree has `default.endpoint = "ovh-eu"`
and a top-level section named `ovh-eu` (the endpoint identifier
verbatim) with the three string credential keys `"ak"`, `"as"`,
`"ck"`, `new_from_file` succeeds with those three fields and host
`eu.api.ovh.com`. -/
theorem C3_well_formed_file_ok (env : Env) (p s : String)
    (tbl : List (String × Toml)) (d sec : Toml)
    (hf : env.readFile p = FileRead.content s)
    (hp : env.parseToml s = some tbl)
    (hd : assocGet tbl "default" = some d)
    (he : d.lookup "endpoint" = some (Toml.str "ovh-eu"))
    (hs : assocGet tbl "ovh-eu" = some sec)
    (hak : sec.lookup "application_key" = some (Toml.str "ak"))
    (has : sec.lookup "application_secret" = some (Toml.str "as"))
    (hck : sec.lookup "consumer_key" = some (Toml.str "ck")) :
    ∃ c, Credential.new_from_file env p = Outcome.ok c ∧
      c.application_key = "ak" ∧ c.application_secret = "as" ∧
      c.consumer_key = "ck" ∧ c.host = "eu.api.ovh.com" := by
  have hrun : Credential.new_from_file env p =
      Outcome.ok { toml := some sec, path := some "", host := "eu.api.ovh.com",
                   application_key := "ak", application_secret := "as",
                   consumer_key := "ck" } := by
    simp [Credential.new_from_file, read_from_path, lookupString, Toml.as_str,
      hf, hp, hd, he, hs, hak, has, hck, endpoint2host]
  exact ⟨_, hrun, rfl, rfl, rfl, rfl⟩

/-- Witness for C3: a concrete well-formed environment. -/
theorem C3_well_formed_file_ok_witness :
    ∃ c, Credential.new_from_file envGood "my.toml" = Outcome.ok c ∧
      c.application_key = "ak" ∧ c.application_secret = "as" ∧
      c.consumer_key = "ck" ∧ c.host = "eu.api.ovh.com" :=
  C3_well_formed_file_ok envGood "my.toml" "good" goodTable
    (Toml.table [("endpoint", Toml.str "ovh-eu")])
    (Toml.table [("application_key", Toml.str "ak"),
                 ("application_secret", Toml.str "as"),
                 ("consumer_key", Toml.str "ck")])
    rfl rfl rfl rfl rfl rfl rfl rfl

/-- C4: at a concrete successful `new_from_file` call, the stored
path is `Some ""`, not the path that was actually used to read the
file — the code records the empty string instead of its argument. -/
theorem C4_from_file_path_empty :
    ∃ c, Credential.new_from_file envGood "Config.toml.dist" = Outcome.ok c ∧
      c.path = some "" ∧ c.path ≠ some "Config.toml.dist" := by
  refine ⟨_, rfl, rfl, by simp⟩

/-- C5: `new_with_credential` sets the four public fields to the
resolved host and the three arguments verbatim, for all strings (no
filesystem access is possible: the function takes no `Env`), and the
`"ovh-eu"`/`"ak"`/`"as"`/`"ck"` instance comes out as specified. -/
theorem C5_new_with_credential_fields (e k s ck : String) :
    Credential.new_with_credential e k s ck =
      { path := none, toml := none, host := endpoint2host e,
        application_key := k, application_secret := s, consumer_key := ck } ∧
    Credential.new_with_credential "ovh-eu" "ak" "as" "ck" =
      { path := none, toml := none, host := "eu.api.ovh.com",
        application_key := "ak", application_secret := "as",
        consumer_key := "ck" } :=
  ⟨rfl, rfl⟩

/-- C6: `new_with_application` resolves the host through the endpoint
table, sets `consumer_key` to the empty string and leaves
`path`/`toml` absent, for all strings; at `"ovh-ca"`, `"x"`, `"y"` the
host is `ca.api.ovh.com`. -/
theorem C6_new_with_application_fields (e k s : String) :
    Credential.new_with_application e k s =
      { path := none, toml := none, host := endpoint2host e,
        application_key := k, application_secret := s, consumer_key := "" } ∧
    (Credential.new_with_application "ovh-ca" "x" "y").consumer_key = "" ∧
    (Credential.new_with_application "ovh-ca" "x" "y").host = "ca.api.ovh.com" :=
  ⟨rfl, rfl, rfl⟩

/-- The eight hostnames that `endpoint2host` can produce: the seven
mapped hosts and the fallback. -/
def hostTable : List String :=
  ["ca.api.ovh.com", "eu.api.ovh.com", "us.api.ovh.com",
   "ca.api.soyoustart.com", "eu.api.soyoustart.com",
   "ca.api.kimsufi.com", "eu.api.kimsufi.com", "api.ovh.com"]

theorem endpoint2host_mem_table (e : String) :
    endpoint2host e ∈ hostTable ∧ endpoint2host e ≠ "" := by
  unfold endpoint2host
  split <;> decide

theorem read_from_path_ok_host (env : Env) (p h : String) (t : Toml)
    (hok : read_from_path env p = Outcome.ok (h, t)) :
    ∃ ep, h = endpoint2host ep := by
  unfold read_from_path at hok
  split at hok <;> try exact Outcome.noConfusion hok
  split at hok <;> try exact Outcome.noConfusion hok
  split at hok <;> try exact Outcome.noConfusion hok
  split at hok <;> try exact Outcome.noConfusion hok
  split at hok <;> try exact Outcome.noConfusion hok
  split at hok <;> try exact Outcome.noConfusion hok
  simp only [Outcome.ok.injEq, Prod.mk.injEq] at hok
  exact ⟨_, hok.1.symm⟩

theorem new_from_file_ok_shape (env : Env) (p : String) (c : Credential)
    (hok : Credential.new_from_file env p = Outcome.ok c) :
    (∃ ep, c.host = endpoint2host ep) ∧ c.path = some "" ∧ (∃ t, c.toml = some t) := by
  unfold Credential.new_from_file at hok
  split at hok <;> try exact Outcome.noConfusion hok
  next host auth heq =>
    obtain ⟨ep, hep⟩ := read_from_path_ok_host env p host auth heq
    split at hok <;> try exact Outcome.noConfusion hok
    split at hok <;> try exact Outcome.noConfusion hok
    split at hok <;> try exact Outcome.noConfusion hok
    simp only [Outcome.ok.injEq] at hok
    subst hok
    exact ⟨⟨ep, hep⟩, rfl, auth, rfl⟩

theorem new_ok_shape (env : Env) (c : Credential)
    (hok : Credential.new env = Outcome.ok c) :
    (∃ ep, c.host = endpoint2host ep) ∧ c.path = some DEFAULT_CONFIG_PATH ∧
      (∃ t, c.toml = some t) := by
  unfold Credential.new at hok
  split at hok <;> try exact Outcome.noConfusion hok
  next host auth heq =>
    obtain ⟨ep, hep⟩ := read_from_path_ok_host env DEFAULT_CONFIG_PATH host auth heq
    split at hok <;> try exact Outcome.noConfusion hok
    split at hok <;> try exact Outcome.noConfusion hok
    split at hok <;> try exact Outcome.noConfusion hok
    simp only [Outcome.ok.injEq] at hok
    subst hok
    exact ⟨⟨ep, hep⟩, rfl, auth, rfl⟩

/-- C7: every `Credential` produced by any of the four construction
modes has a non-empty host drawn from the seven mapped hostnames or
the fallback `api.ovh.com`. -/
theorem C7_host_invariant (env : Env) (p e k s ck : String) (c : Credential)
    (hc : Credential.new env = Outcome.ok c ∨
          Credential.new_from_file env p = Outcome.ok c ∨
          c = Credential.new_with_application e k s ∨
          c = Credential.new_with_credential e k s ck) :
    c.host ≠ "" ∧ c.host ∈ hostTable := by
  rcases hc with h | h | h | h
  · obtain ⟨⟨ep, hep⟩, -, -⟩ := new_ok_shape env c h
    rw [hep]
    exact ⟨(endpoint2host_mem_table ep).2, (endpoint2host_mem_table ep).1⟩
  · obtain ⟨⟨ep, hep⟩, -, -⟩ := new_from_file_ok_shape env p c h
    rw [hep]
    exact ⟨(endpoint2host_mem_table ep).2, (endpoint2host_mem_table ep).1⟩
  · rw [h]
    exact ⟨(endpoint2host_mem_table e).2, (endpoint2host_mem_table e).1⟩
  · rw [h]
    exact ⟨(endpoint2host_mem_table e).2, (endpoint2host_mem_table e).1⟩

/-- Witness for C7: the invariant at a file-built and a
parameter-built credential. -/
theorem C7_host_invariant_witness :
    (Credential.new_with_application "ovh-ca" "x" "y").host ≠ "" ∧
    (Credential.new_with_application "ovh-ca" "x" "y").host ∈ hostTable :=
  C7_host_invariant envGood "p" "ovh-ca" "x" "y" ""
    (Credential.new_with_application "ovh-ca" "x" "y")
    (Or.inr (Or.inr (Or.inl rfl)))

/-- C8: every `Credential` produced by any of the four construction
modes has `path` and `toml` both present (file paths) or both absent
(parameter paths); no constructor yields a mixed state. -/
theorem C8_path_toml_together (env : Env) (p e k s ck : String) (c : Credential)
    (hc : Credential.new env = Outcome.ok c ∨
          Credential.new_from_file env p = Outcome.ok c ∨
          c = Credential.new_with_application e k s ∨
          c = Credential.new_with_credential e k s ck) :
    (c.path = none ∧ c.toml = none) ∨
      (∃ q t, c.path = some q ∧ c.toml = some t) := by
  rcases hc with h | h | h | h
  · obtain ⟨-, hpath, t, htoml⟩ := new_ok_shape env c h
    exact Or.inr ⟨_, t, hpath, htoml⟩
  · obtain ⟨-, hpath, t, htoml⟩ := new_from_file_ok_shape env p c h
    exact Or.inr ⟨_, t, hpath, htoml⟩
  · rw [h]
    exact Or.inl ⟨rfl, rfl⟩
  · rw [h]
    exact Or.inl ⟨rfl, rfl⟩

/-- Witness for C8: the invariant at a parameter-built credential. -/
theorem C8_path_toml_together_witness :
    ((Credential.new_with_credential "ovh-eu" "ak" "as" "ck").path = none ∧
     (Credential.new_with_credential "ovh-eu" "ak" "as" "ck").toml = none) ∨
      (∃ q t, (Credential.new_with_credential "ovh-eu" "ak" "as" "ck").path = some q ∧
        (Credential.new_with_credential "ovh-eu" "ak" "as" "ck").toml = some t) :=
  C8_path_toml_together envGood "p" "ovh-eu" "ak" "as" "ck"
    (Credential.new_with_credential "ovh-eu" "ak" "as" "ck")
    (Or.inr (Or.inr (Or.inr rfl)))

/-- C9: each constructor, called twice on identical inputs (identical
strings, and for the file paths an identical filesystem/parser state
`env`), returns equal `Credential` results — construction is a pure
function of its inputs in this embedding, so two calls with the same
arguments coincide. -/
theorem C9_constructors_deterministic (env env' : Env)
    (p p' e e' k k' s s' ck ck' : String)
    (henv : env = env') (hp : p = p') (he : e = e') (hk : k = k')
    (hs : s = s') (hck : ck = ck') :
    Credential.new env = Credential.new env' ∧
    Credential.new_from_file env p = Credential.new_from_file env' p' ∧
    Credential.new_with_application e k s =
      Credential.new_with_application e' k' s' ∧
    Credential.new_with_credential e k s ck =
      Credential.new_with_credential e' k' s' ck' := by
  subst henv hp he hk hs hck
  exact ⟨rfl, rfl, rfl, rfl⟩

/-- Witness for C9: determinism at concrete inputs. -/
theorem C9_constructors_deterministic_witness :
    Credential.new envGood = Credential.new envGood ∧
    Credential.new_from_file envGood "a.toml" =
      Credential.new_from_file envGood "a.toml" ∧
    Credential.new_with_application "ovh-eu" "k" "s" =
      Credential.new_with_application "ovh-eu" "k" "s" ∧
    Credential.new_with_credential "ovh-eu" "k" "s" "c" =
      Credential.new_with_credential "ovh-eu" "k" "s" "c" :=
  C9_constructors_deterministic envGood envGood "a.toml" "a.toml"
    "ovh-eu" "ovh-eu" "k" "k" "s" "s" "c" "c" rfl rfl rfl rfl rfl rfl
